import Mathlib

/-!
Verification development for the invoice-to-XML compiler of the Invoicer
repository (src/invoice_app/invoice_logic.py).

The Python module is shallowly embedded below:

* Python floats are modelled by exact rationals (`ℚ`).  All arithmetic used
  by the compiler (products, sums, divisions by 100) is exact on the inputs
  exercised here, and CPython `round(x, 2)` / `f"{x:.2f}"` formatting both
  perform round-half-to-even on the value of the double; on inputs whose
  intermediate values are exactly representable in binary (all concrete
  inputs below are) this coincides with round-half-to-even on the rational
  value, which is what `rhe` implements.  Arithmetic is written with
  `Rat.divInt`-based wrappers (`qadd`, `qmul`, ...) because the Batteries
  field operations on `ℚ` are irreducible and would block kernel
  evaluation; bridge lemmas (`qadd_eq`, ...) relate them to `+`, `*`, `/`.
* Python dicts with known key sets are modelled by structures whose fields
  are `Option`s (a `none` field is an absent key); `dict.get(k, d)` becomes
  `Option.getD`.
* A raised `ValueError` (from `float(...)` on a bad string) is modelled by
  `Except.error ()`; the XML generator therefore returns `Except Unit _`.
* `xml.etree.ElementTree` trees are the inductive `Xml`; serialisation
  mirrors `ET.tostring(root, encoding="utf-8")`, which for the exact
  encoding string "utf-8" emits no XML declaration, after which the source
  prepends its own declaration.
* `datetime.date.today()` is passed in as an explicit `today` parameter;
  dates are proleptic-Gregorian triples with exact day arithmetic, like
  `datetime.date` and `timedelta`.

Not modelled (not reachable from any property below): non-finite float
values — CPython `float("inf")`/`float("nan")` succeed and the doubles then
flow through the arithmetic; this finite-rational model has no such values,
so `parsePyFloat` maps those strings to `none` while `pyNonFinite`
recognises them, and `pyRaises` (parse failure that is not a non-finite
form) is exactly the set of strings on which `float()` raises `ValueError`.
Also out of scope: non-ASCII digit/alphabetic/whitespace classification in
`str.isalpha`/`str.isdigit`/`float()`, and the negative-zero sign that
CPython float formatting can produce for values in (-0.005, 0).
-/

/-! ## Exact rational arithmetic that the kernel can evaluate -/

/-- Integer as a rational, via `Rat.divInt` (kernel reducible). -/
def qofInt (n : ℤ) : ℚ := Rat.divInt n 1

/-- Addition on `ℚ` by cross multiplication; equals `a + b` (`qadd_eq`). -/
def qadd (a b : ℚ) : ℚ := Rat.divInt (a.num * b.den + b.num * a.den) (a.den * b.den)

/-- Multiplication on `ℚ`; equals `a * b` (`qmul_eq`). -/
def qmul (a b : ℚ) : ℚ := Rat.divInt (a.num * b.num) (a.den * b.den)

/-- Division on `ℚ`; equals `a / b` (`qdiv_eq`). -/
def qdiv (a b : ℚ) : ℚ := Rat.divInt (a.num * b.den) (a.den * b.num)

/-- Sum of a list of rationals with `qadd`; equals `List.sum` (`qsum_eq`). -/
def qsum (l : List ℚ) : ℚ := l.foldr qadd (qofInt 0)

/-! ## CPython rounding and 2-decimal formatting

`round(x, 2)` and `f"{x:.2f}"` both round the double to the nearest
multiple of 1/100, ties to the even multiple (IEEE 754 semantics of the
exact binary value, here applied to the exact rational value). -/

/-- Round a rational to the nearest integer, ties to even. -/
def rhe (x : ℚ) : ℤ :=
  let f := Rat.floor x
  let r := qadd x (qofInt (-f))
  if r < Rat.divInt 1 2 then f
  else if Rat.divInt 1 2 < r then f + 1
  else if f % 2 = 0 then f else f + 1

/-- The constant 100 as a rational. -/
def q100 : ℚ := qofInt 100

/-- Python `round(x, 2)`. -/
def pyRound2 (x : ℚ) : ℚ := Rat.divInt (rhe (qmul x q100)) 100

/-- Zero-pad a natural number to two digits. -/
def pad2 (n : ℕ) : String := if n < 10 then "0" ++ toString n else toString n

/-- Zero-pad a natural number to four digits. -/
def pad4 (n : ℕ) : String :=
  if n < 10 then "000" ++ toString n
  else if n < 100 then "00" ++ toString n
  else if n < 1000 then "0" ++ toString n
  else toString n

/-- Python `f"{x:.2f}"`: fixed-point with 2 decimals, period separator,
no thousands grouping. -/
def fmt2 (x : ℚ) : String :=
  let k := rhe (qmul x q100)
  (if k < 0 then "-" else "") ++ toString (k.natAbs / 100) ++ "." ++ pad2 (k.natAbs % 100)

/-! ## Python string helpers -/

/-- The whitespace characters stripped by Python `str.strip()` (ASCII part). -/
def pyWsp (c : Char) : Bool :=
  c = ' ' ∨ c = '\t' ∨ c = '\n' ∨ c = '\r' ∨ c = '\x0b' ∨ c = '\x0c'

/-- Python `s.strip()`. -/
def pyStrip (s : String) : String :=
  String.mk (((s.data.dropWhile pyWsp).reverse.dropWhile pyWsp).reverse)

/-- Python `s.replace(" ", "")`: removes every space. -/
def removeSpaces (s : String) : String :=
  String.mk (s.data.filter (fun c => c ≠ ' '))

/-- Python `s.split(" ", 1)`: split on the first space only. -/
def pySplitOnce (s : String) : List String :=
  let i := s.data.takeWhile (fun c => c ≠ ' ')
  match s.data.dropWhile (fun c => c ≠ ' ') with
  | [] => [s]
  | _ :: rest => [String.mk i, String.mk rest]

/-- Python `s.isdigit()` (ASCII digits). -/
def pyIsDigit (s : String) : Bool :=
  !s.data.isEmpty && s.data.all Char.isDigit

/-- Python `s.isalpha()` (ASCII letters). -/
def pyIsAlpha (s : String) : Bool :=
  !s.data.isEmpty && s.data.all Char.isAlpha

/-- Python `s.startswith(pre)`. -/
def pyStartsWith (s pre : String) : Bool := pre.data.isPrefixOf s.data

/-- Truthiness of an optional string (Python: `None` and `""` are falsy). -/
def pyTruthy (s : Option String) : Bool :=
  match s with
  | none => false
  | some t => !(t = "")

/-- Continuation of a CPython `digitpart` after its first digit: digits
with single underscores allowed only between digits (PEP 515). -/
def digitSeqRest : List Char → Bool
  | [] => true
  | c :: cs =>
    if c = '_' then
      match cs with
      | [] => false
      | d :: ds => d.isDigit && digitSeqRest ds
    else c.isDigit && digitSeqRest cs

/-- A CPython `digitpart`: nonempty digits, underscores only between
digits. -/
def digitSeq : List Char → Bool
  | [] => false
  | c :: cs => c.isDigit && digitSeqRest cs

/-- Drop the underscores of a digit sequence. -/
def stripUnderscores (cs : List Char) : List Char := cs.filter (fun c => c ≠ '_')

/-- Numeric value of a digit sequence, underscores ignored. -/
def digitsUVal (cs : List Char) : ℕ :=
  cs.foldl (fun a c => if c = '_' then a else 10 * a + (c.toNat - 48)) 0

/-- Exact value `sg * (m / 10^f) * 10^e` of a parsed float literal
(mantissa integer `m`, `f` fractional digits, exponent `e`). -/
def pyFloatVal (sg : ℤ) (m : ℕ) (f : ℕ) (e : ℤ) : ℚ :=
  if 0 ≤ e then Rat.divInt (sg * ((m * 10 ^ e.toNat : ℕ) : ℤ)) (((10 ^ f : ℕ) : ℤ))
  else Rat.divInt (sg * (m : ℤ)) (((10 ^ f * 10 ^ (-e).toNat : ℕ) : ℤ))

/-- CPython `float(s)` on strings, finite results: surrounding whitespace
stripped, optional sign, then either a finite float literal — `digitpart`,
`digitpart "." [digitpart]`, `[digitpart] "." digitpart`, each with
optional `("e"|"E") [sign] digitpart` exponent and PEP-515 underscores —
or one of the non-finite forms `inf`/`infinity`/`nan` (case-insensitive).
Finite literals return their exact rational value.  `none` covers the two
remaining cases: strings on which `float()` raises `ValueError`, and the
non-finite forms, whose values this finite model cannot carry;
`pyNonFinite` tells them apart. -/
def parsePyFloat (s : String) : Option ℚ :=
  let t := (pyStrip s).data.map Char.toLower
  let core : List Char × ℤ :=
    match t with
    | '-' :: cs => (cs, -1)
    | '+' :: cs => (cs, 1)
    | cs => (cs, 1)
  let cs := core.1
  let sg := core.2
  if cs = "inf".data ∨ cs = "infinity".data ∨ cs = "nan".data then none
  else
    let eVal : Option ℤ :=
      match cs.dropWhile (fun c => c ≠ 'e') with
      | [] => some 0
      | _ :: ecs =>
        match ecs with
        | '-' :: r => if digitSeq r then some (-(digitsUVal r : ℤ)) else none
        | '+' :: r => if digitSeq r then some ((digitsUVal r : ℤ)) else none
        | r => if digitSeq r then some ((digitsUVal r : ℤ)) else none
    match eVal with
    | none => none
    | some e =>
      let mant := cs.takeWhile (fun c => c ≠ 'e')
      let ip := mant.takeWhile (fun c => c ≠ '.')
      match mant.dropWhile (fun c => c ≠ '.') with
      | [] => if digitSeq mant then some (pyFloatVal sg (digitsUVal mant) 0 e) else none
      | _ :: fp =>
        if (ip.isEmpty || digitSeq ip) && (fp.isEmpty || digitSeq fp)
            && !(ip.isEmpty && fp.isEmpty) then
          some (pyFloatVal sg
            (digitsUVal ip * 10 ^ (stripUnderscores fp).length + digitsUVal fp)
            (stripUnderscores fp).length e)
        else none

/-- The strings CPython `float()` converts to a non-finite double:
optionally signed `inf`/`infinity`/`nan`, case-insensitive, stripped. -/
def pyNonFinite (s : String) : Bool :=
  let t := (pyStrip s).data.map Char.toLower
  let u : List Char :=
    match t with
    | '-' :: cs => cs
    | '+' :: cs => cs
    | cs => cs
  u == "inf".data || u == "infinity".data || u == "nan".data

/-- Exactly the strings on which CPython `float(s)` raises `ValueError`:
no finite parse and not a non-finite form. -/
def pyRaises (s : String) : Bool := (parsePyFloat s).isNone && !(pyNonFinite s)

/-- A Python value sitting in a line-item field: a number or a string. -/
inductive PyVal where
  | num : ℚ → PyVal
  | str : String → PyVal

/-- Python `float(v)`: identity on numbers, parse on strings, raising
(`Except.error`) on strings that do not parse. -/
def pyFloat (v : PyVal) : Except Unit ℚ :=
  match v with
  | .num q => .ok q
  | .str s =>
    match parsePyFloat s with
    | some q => .ok q
    | none => .error ()

/-! ## `format_de` (invoice_logic.py lines 15-25) -/

/-- Insert a period every three digits, input reversed digit list. -/
def g3 : List Char → ℕ → List Char
  | [], _ => []
  | c :: cs, i => (if i ≠ 0 ∧ i % 3 = 0 then ['.', c] else [c]) ++ g3 cs (i + 1)

/-- Group an integer-part digit string in threes with periods. -/
def groupDE (s : String) : String := String.mk ((g3 s.data.reverse 0).reverse)

/-- Python `format_de(value)`: German-style 2-decimal display string
(`1.250,00`); `None` and unparsable values format as `"0,00"`. -/
def format_de (value : Option PyVal) : String :=
  match value with
  | none => "0,00"
  | some v =>
    match pyFloat v with
    | .error _ => "0,00"
    | .ok q =>
      let k := rhe (qmul q q100)
      (if k < 0 then "-" else "") ++ groupDE (toString (k.natAbs / 100)) ++ "," ++
        pad2 (k.natAbs % 100)

/-! ## `get_tax_scheme` (invoice_logic.py lines 27-39) -/

/-- Source `get_tax_scheme(tax_id)`: `(None, None)` on a falsy input; otherwise
removes spaces and strips, then classifies as `"VA"` when the cleaned id
is longer than 2 characters and its first two characters are alphabetic,
else `"FC"`. -/
def get_tax_scheme (tax_id : Option String) : Option String × Option String :=
  if !(pyTruthy tax_id) then (none, none)
  else
    let clean_id := pyStrip (removeSpaces (tax_id.getD ""))
    if 2 < clean_id.data.length ∧ (clean_id.data.take 2).all Char.isAlpha then
      (some clean_id, some "VA")
    else
      (some clean_id, some "FC")

/-! ## `parse_address_fields` (invoice_logic.py lines 41-69) -/

/-- Source `parse_address_fields(lines)` returning `(line_one, postcode, city)`. -/
def parse_address_fields (lines : List String) : String × String × String :=
  let line_one := lines.headD ""
  if 1 < lines.length then
    let last_line := pyStrip ((lines.getLast?).getD "")
    match pySplitOnce last_line with
    | [p0, p1] =>
      if pyIsDigit p0 then (line_one, p0, p1)
      else if pyIsDigit p1 then (line_one, p1, p0)
      else (line_one, p1, p0)
    | _ => (line_one, "", last_line)
  else
    (line_one, "", "")

/-! ## Dates (`datetime.date`, `timedelta(days=14)`, `strftime("%Y%m%d")`) -/

/-- A proleptic-Gregorian calendar date. -/
structure PyDate where
  year : ℕ
  month : ℕ
  day : ℕ

/-- Gregorian leap-year rule. -/
def isLeap (y : ℕ) : Bool := (y % 4 == 0) && (y % 100 != 0 || y % 400 == 0)

/-- Number of days in a month. -/
def daysInMonth (y m : ℕ) : ℕ :=
  if m = 2 then (if isLeap y then 29 else 28)
  else if m = 4 ∨ m = 6 ∨ m = 9 ∨ m = 11 then 30
  else 31

/-- The day after a date. -/
def nextDay (d : PyDate) : PyDate :=
  if d.day < daysInMonth d.year d.month then ⟨d.year, d.month, d.day + 1⟩
  else if d.month < 12 then ⟨d.year, d.month + 1, 1⟩
  else ⟨d.year + 1, 1, 1⟩

/-- Python `date + timedelta(days=n)`. -/
def addDays : PyDate → ℕ → PyDate
  | d, 0 => d
  | d, n + 1 => addDays (nextDay d) n

/-- Python `d.strftime("%Y%m%d")` (format code 102). -/
def strftime102 (d : PyDate) : String := pad4 d.year ++ pad2 d.month ++ pad2 d.day

/-! ## The invoice data model (the `data` dict consumed by
`generate_facturx_xml`); `none` fields are absent dict keys. -/

/-- A delivery/service date: single date or a range. -/
inductive DeliveryDate where
  | single : PyDate → DeliveryDate
  | range : PyDate → PyDate → DeliveryDate

/-- One entry of `data["items"]`.  The `Alt` fields are the legacy
UI-column keys `"Quantity (hours)"` / `"Price per Hour (€)"` that the
source consults as `item.get` fallbacks. -/
structure Item where
  name : Option String
  description : Option String
  qty : Option PyVal
  qtyAlt : Option PyVal
  price : Option PyVal
  priceAlt : Option PyVal
  vat_percent : Option PyVal
  global_id : Option String
  global_id_scheme : Option String

/-- Entry `data["sender"]` / `data["recipient"]`. -/
structure Party where
  name : Option String
  address_lines : List String

/-- Entry `data["footer"]` (only the key the XML generator reads). -/
structure Footer where
  iban : Option String

/-- The invoice record passed to `generate_facturx_xml`. -/
structure InvoiceData where
  id : Option String
  date : Option PyDate
  due_date : Option PyDate
  delivery_date : Option DeliveryDate
  items : List Item
  unit_code : Option String
  sender : Option Party
  recipient : Option Party
  sender_tax_id : Option String
  project_id : Option String
  order_id : Option String
  customer_id : Option String
  footer : Option Footer

/-- The three floats extracted from one line item. -/
structure ParsedLine where
  price : ℚ
  qty : ℚ
  vat : ℚ

/-- The default VAT rate `19.0`. -/
def q19 : ℚ := qofInt 19

/-- Line 152: `net_line = round(unit_price * qty_val, 2)`. -/
def net_line (pl : ParsedLine) : ℚ := pyRound2 (qmul pl.price pl.qty)

/-- Line 157: `round(net_line * (tax_percent / 100.0), 2)`. -/
def tax_line (pl : ParsedLine) : ℚ := pyRound2 (qmul (net_line pl) (qdiv pl.vat q100))

/-- Line 128: `item.get("price", item.get("Price per Hour (€)", 0))`. -/
def priceRaw (it : Item) : PyVal := it.price.getD (it.priceAlt.getD (.num (qofInt 0)))

/-- Line 134: `item.get("qty", item.get("Quantity (hours)", 0))`. -/
def qtyRaw (it : Item) : PyVal := it.qty.getD (it.qtyAlt.getD (.num (qofInt 0)))

/-- Line 140: `item.get("vat_percent", 19.0)`. -/
def vatRaw (it : Item) : PyVal := it.vat_percent.getD (.num q19)

/-- The three `float(item.get(...))` calls of the line-item loop
(lines 128, 134, 140), in source order; a `ValueError` propagates. -/
def parseLine (it : Item) : Except Unit ParsedLine :=
  match pyFloat (priceRaw it) with
  | .error e => .error e
  | .ok p =>
    match pyFloat (qtyRaw it) with
    | .error e => .error e
    | .ok q =>
      match pyFloat (vatRaw it) with
      | .error e => .error e
      | .ok v => .ok ⟨p, q, v⟩

/-- Runs `parseLine` over the item list, first error wins (the loop raises). -/
def parseItems : List Item → Except Unit (List ParsedLine)
  | [] => .ok []
  | it :: its =>
    match parseLine it with
    | .error e => .error e
    | .ok pl =>
      match parseItems its with
      | .error e => .error e
      | .ok pls => .ok (pl :: pls)

/-! ## ElementTree model -/

/-- An `xml.etree.ElementTree` element: tag, attributes (insertion
order), children, text (ElementTree treats text `None` and `""` alike
when serialising, so text is a plain string). -/
inductive Xml where
  | elem : String → List (String × String) → List Xml → String → Xml

mutual
/-- Texts of all elements with the given tag, in document order. -/
def textsOf (tag : String) : Xml → List String
  | .elem t _ ch tx => (if tag = t then [tx] else []) ++ textsOfL tag ch
/-- List version of `textsOf`. -/
def textsOfL (tag : String) : List Xml → List String
  | [] => []
  | x :: xs => textsOf tag x ++ textsOfL tag xs
end

mutual
/-- All elements with the given tag, in document order. -/
def findElems (tag : String) : Xml → List Xml
  | .elem t a ch tx => (if tag = t then [Xml.elem t a ch tx] else []) ++ findElemsL tag ch
/-- List version of `findElems`. -/
def findElemsL (tag : String) : List Xml → List Xml
  | [] => []
  | x :: xs => findElems tag x ++ findElemsL tag xs
end

/-! ## Registered namespaces and tag construction (lines 4-13, 77-98) -/

/-- URN bound to the `rsm` prefix. -/
def nsRsm : String := "urn:un:unece:uncefact:data:standard:CrossIndustryInvoice:100"

/-- URN bound to the `ram` prefix. -/
def nsRam : String := "urn:un:unece:uncefact:data:standard:ReusableAggregateBusinessInformationEntity:100"

/-- URN bound to the `udt` prefix. -/
def nsUdt : String := "urn:un:unece:uncefact:data:standard:UnqualifiedDataType:100"

/-- URN bound to the `qdt` prefix. -/
def nsQdt : String := "urn:un:unece:uncefact:data:standard:QualifiedDataType:100"

/-- The registered prefix/URI pairs, in registration order. -/
def NAMESPACES : List (String × String) :=
  [("rsm", nsRsm), ("ram", nsRam), ("udt", nsUdt), ("qdt", nsQdt)]

/-- ElementTree fully-qualified tag `{uri}Local` (the source builds tags
with f-strings of this shape). -/
def mkTag (uri ln : String) : String := "\x7b" ++ uri ++ "\x7d" ++ ln

/-- Tag in the `rsm` namespace. -/
def rsmT (n : String) : String := mkTag nsRsm n

/-- Tag in the `ram` namespace. -/
def ramT (n : String) : String := mkTag nsRam n

/-- Tag in the `udt` namespace. -/
def udtT (n : String) : String := mkTag nsUdt n

/-! ## Tree construction (`generate_facturx_xml`, lines 71-300) -/

/-- Lines 79-83: `ExchangedDocumentContext` with the Factur-X Basic
guideline URN. -/
def contextXml : Xml :=
  .elem (rsmT "ExchangedDocumentContext") []
    [.elem (ramT "GuidelineSpecifiedDocumentContextParameter") []
      [.elem (ramT "ID") [] [] "urn:cen.eu:en16931:2017#compliant#urn:factur-x.eu:1p0:basic"] ""]
    ""

/-- Lines 85-95: `ExchangedDocument` (id, type code 380, issue date). -/
def exdocXml (today : PyDate) (d : InvoiceData) : Xml :=
  .elem (rsmT "ExchangedDocument") []
    [.elem (ramT "ID") [] [] (d.id.getD "INV-001"),
     .elem (ramT "TypeCode") [] [] "380",
     .elem (ramT "IssueDateTime") []
       [.elem (udtT "DateTimeString") [("format", "102")] [] (strftime102 (d.date.getD today))]
       ""]
    ""

/-- Lines 105-154: one `IncludedSupplyChainTradeLineItem`. -/
def lineFragment (uc : String) (idx : ℕ) (it : Item) (pl : ParsedLine) : Xml :=
  .elem (ramT "IncludedSupplyChainTradeLineItem") []
    [.elem (ramT "AssociatedDocumentLineDocument") []
       [.elem (ramT "LineID") [] [] (toString idx)] "",
     .elem (ramT "SpecifiedTradeProduct") []
       ((if pyTruthy it.global_id && pyTruthy it.global_id_scheme then
           [Xml.elem (ramT "GlobalID") [("schemeID", it.global_id_scheme.getD "")] []
             (it.global_id.getD "")]
         else []) ++
        [.elem (ramT "Name") [] [] (it.name.getD (it.description.getD "Item"))])
       "",
     .elem (ramT "SpecifiedLineTradeAgreement") []
       [.elem (ramT "NetPriceProductTradePrice") []
         [.elem (ramT "ChargeAmount") [] [] (fmt2 pl.price)] ""] "",
     .elem (ramT "SpecifiedLineTradeDelivery") []
       [.elem (ramT "BilledQuantity") [("unitCode", uc)] [] (fmt2 pl.qty)] "",
     .elem (ramT "SpecifiedLineTradeSettlement") []
       [.elem (ramT "ApplicableTradeTax") []
          [.elem (ramT "TypeCode") [] [] "VAT",
           .elem (ramT "CategoryCode") [] [] "S",
           .elem (ramT "RateApplicablePercent") [] [] (fmt2 pl.vat)] "",
        .elem (ramT "SpecifiedTradeSettlementLineMonetarySummation") []
          [.elem (ramT "LineTotalAmount") [("currencyID", "EUR")] [] (fmt2 (net_line pl))] ""]
       ""]
    ""

/-- The line-item loop `enumerate(items, 1)`: fragments with 1-based ids. -/
def fragmentsOf (uc : String) : ℕ → List (Item × ParsedLine) → List Xml
  | _, [] => []
  | i, p :: ps => lineFragment uc i p.1 p.2 :: fragmentsOf uc (i + 1) ps

/-- Lines 100-157: run the line loop, returning the fragments and the
accumulated `total_net` / `total_tax`. -/
def compileItems (uc : String) (items : List Item) : Except Unit (List Xml × ℚ × ℚ) :=
  match parseItems items with
  | .error e => .error e
  | .ok ls =>
    .ok (fragmentsOf uc 1 (items.zip ls), qsum (ls.map net_line), qsum (ls.map tax_line))

/-- Lines 167-181, 218-232: a `PostalTradeAddress` (postcode, line one and
city only when truthy, fixed country `DE`). -/
def addrXml (l1 zip city : String) : Xml :=
  .elem (ramT "PostalTradeAddress") []
    ((if !(zip = "") then [Xml.elem (ramT "PostcodeCode") [] [] zip] else []) ++
     (if !(l1 = "") then [Xml.elem (ramT "LineOne") [] [] l1] else []) ++
     (if !(city = "") then [Xml.elem (ramT "CityName") [] [] city] else []) ++
     [Xml.elem (ramT "CountryID") [] [] "DE"])
    ""

/-- Lines 183-191: the seller tax registration; only scheme `"VA"` carries
a `schemeID` attribute. -/
def taxRegXml (tax_id : Option String) : Xml :=
  let cs := get_tax_scheme tax_id
  .elem (ramT "SpecifiedTaxRegistration") []
    [if cs.2 = some "VA" then Xml.elem (ramT "ID") [("schemeID", "VA")] [] (cs.1.getD "")
     else Xml.elem (ramT "ID") [] [] (cs.1.getD "")]
    ""

/-- Lines 162-191: `SellerTradeParty`. -/
def sellerXml (d : InvoiceData) : Xml :=
  let sp := d.sender.getD ⟨none, []⟩
  let t := parse_address_fields sp.address_lines
  .elem (ramT "SellerTradeParty") []
    ([Xml.elem (ramT "Name") [] [] (sp.name.getD "Seller Name"),
      addrXml t.1 t.2.1 t.2.2] ++
     (if pyTruthy d.sender_tax_id then [taxRegXml d.sender_tax_id] else []))
    ""

/-- Lines 209-232: `BuyerTradeParty`. -/
def buyerXml (d : InvoiceData) : Xml :=
  let rp := d.recipient.getD ⟨none, []⟩
  let t := parse_address_fields rp.address_lines
  .elem (ramT "BuyerTradeParty") []
    ((if pyTruthy d.customer_id then [Xml.elem (ramT "ID") [] [] (d.customer_id.getD "")]
      else []) ++
     [Xml.elem (ramT "Name") [] [] (rp.name.getD "Buyer Name"),
      addrXml t.1 t.2.1 t.2.2])
    ""

/-- Lines 159-232: `ApplicableHeaderTradeAgreement` (seller, optional
project / order references, buyer). -/
def agreementXml (d : InvoiceData) : Xml :=
  .elem (ramT "ApplicableHeaderTradeAgreement") []
    ([sellerXml d] ++
     (if pyTruthy d.project_id then
        [Xml.elem (ramT "AdditionalReferencedDocument") []
          [Xml.elem (ramT "IssuerAssignedID") [] [] (d.project_id.getD ""),
           Xml.elem (ramT "TypeCode") [] [] "130"] ""]
      else []) ++
     (if pyTruthy d.order_id then
        [Xml.elem (ramT "BuyerOrderReferencedDocument") []
          [Xml.elem (ramT "IssuerAssignedID") [] [] (d.order_id.getD "")] ""]
      else []) ++
     [buyerXml d])
    ""

/-- Lines 234-235: `ApplicableHeaderTradeDelivery` — created with no
children; the delivery/service date is never written into the XML. -/
def deliveryXml : Xml := .elem (ramT "ApplicableHeaderTradeDelivery") [] [] ""

/-- Line 249: the IBAN text, `data.get("footer", {}).get("iban", "")`
with spaces removed. -/
def ibanText (d : InvoiceData) : String :=
  removeSpaces (((d.footer.getD ⟨none⟩).iban).getD "")

/-- Lines 242-249: `SpecifiedTradeSettlementPaymentMeans` — built
unconditionally, with SEPA type code 58 and the cleaned IBAN. -/
def paymentXml (ib : String) : Xml :=
  .elem (ramT "SpecifiedTradeSettlementPaymentMeans") []
    [.elem (ramT "TypeCode") [] [] "58",
     .elem (ramT "PayeePartyCreditorFinancialAccount") []
       [.elem (ramT "IBANID") [] [] ib] ""]
    ""

/-- Lines 251-268: the header `ApplicableTradeTax`: calculated amount and
basis from the accumulated totals, rate fixed to the literal `"19.00"`. -/
def headerTaxXml (total_net total_tax : ℚ) : Xml :=
  .elem (ramT "ApplicableTradeTax") []
    [.elem (ramT "CalculatedAmount") [("currencyID", "EUR")] [] (fmt2 total_tax),
     .elem (ramT "TypeCode") [] [] "VAT",
     .elem (ramT "BasisAmount") [("currencyID", "EUR")] [] (fmt2 total_net),
     .elem (ramT "CategoryCode") [] [] "S",
     .elem (ramT "RateApplicablePercent") [] [] "19.00"]
    ""

/-- Lines 270-279: `SpecifiedTradePaymentTerms`; missing due date
defaults to issue date + 14 days. -/
def termsXml (today : PyDate) (d : InvoiceData) : Xml :=
  let issue_dt := d.date.getD today
  let due_dt := d.due_date.getD (addDays issue_dt 14)
  .elem (ramT "SpecifiedTradePaymentTerms") []
    [.elem (ramT "DueDateDateTime") []
      [.elem (udtT "DateTimeString") [("format", "102")] [] (strftime102 due_dt)] ""]
    ""

/-- Lines 281-300: rounding of the totals and the
`SpecifiedTradeSettlementHeaderMonetarySummation` block. -/
def summationXml (total_net total_tax : ℚ) : Xml :=
  let tn := pyRound2 total_net
  let tt := pyRound2 total_tax
  let grand_total := pyRound2 (qadd tn tt)
  .elem (ramT "SpecifiedTradeSettlementHeaderMonetarySummation") []
    [.elem (ramT "LineTotalAmount") [("currencyID", "EUR")] [] (fmt2 tn),
     .elem (ramT "ChargeTotalAmount") [("currencyID", "EUR")] [] "0.00",
     .elem (ramT "AllowanceTotalAmount") [("currencyID", "EUR")] [] "0.00",
     .elem (ramT "TaxBasisTotalAmount") [("currencyID", "EUR")] [] (fmt2 tn),
     .elem (ramT "TaxTotalAmount") [("currencyID", "EUR")] [] (fmt2 tt),
     .elem (ramT "GrandTotalAmount") [("currencyID", "EUR")] [] (fmt2 grand_total),
     .elem (ramT "DuePayableAmount") [("currencyID", "EUR")] [] (fmt2 grand_total)]
    ""

/-- Lines 237-300: `ApplicableHeaderTradeSettlement`. -/
def settlementXml (today : PyDate) (d : InvoiceData) (total_net total_tax : ℚ) : Xml :=
  .elem (ramT "ApplicableHeaderTradeSettlement") []
    [.elem (ramT "InvoiceCurrencyCode") [] [] "EUR",
     paymentXml (ibanText d),
     headerTaxXml total_net total_tax,
     termsXml today d,
     summationXml total_net total_tax]
    ""

/-- The assembled `rsm:CrossIndustryInvoice` element tree. -/
def buildTree (today : PyDate) (d : InvoiceData) (frs : List Xml) (total_net total_tax : ℚ) :
    Xml :=
  .elem (rsmT "CrossIndustryInvoice") []
    [contextXml,
     exdocXml today d,
     .elem (rsmT "SupplyChainTradeTransaction") []
       (frs ++ [agreementXml d, deliveryXml, settlementXml today d total_net total_tax]) ""]
    ""

/-- Source `generate_facturx_xml` up to (but excluding) serialisation. -/
def generateTree (today : PyDate) (d : InvoiceData) : Except Unit Xml :=
  match compileItems (d.unit_code.getD "HUR") d.items with
  | .error e => .error e
  | .ok (frs, total_net, total_tax) => .ok (buildTree today d frs total_net total_tax)

/-! ## Serialisation (lines 302-308 and the ElementTree writer) -/

/-- ElementTree `_escape_cdata` for element text. -/
def escCharText (c : Char) : List Char :=
  if c = '&' then "&amp;".data
  else if c = '<' then "&lt;".data
  else if c = '>' then "&gt;".data
  else [c]

/-- Escape element text. -/
def escapeText (s : String) : String :=
  String.mk (s.data.foldr (fun c acc => escCharText c ++ acc) [])

/-- ElementTree `_escape_attrib` for attribute values. -/
def escCharAttrib (c : Char) : List Char :=
  if c = '&' then "&amp;".data
  else if c = '<' then "&lt;".data
  else if c = '>' then "&gt;".data
  else if c = '"' then "&quot;".data
  else if c = '\r' then "&#13;".data
  else if c = '\n' then "&#10;".data
  else if c = '\t' then "&#09;".data
  else [c]

/-- Escape an attribute value. -/
def escapeAttrib (s : String) : String :=
  String.mk (s.data.foldr (fun c acc => escCharAttrib c ++ acc) [])

/-- Resolve a `{uri}Local` tag to `prefix:Local` using the registered
namespaces. -/
def qname (t : String) : String :=
  match NAMESPACES.find? (fun p => pyStartsWith t ("\x7b" ++ p.2 ++ "\x7d")) with
  | some p => p.1 ++ ":" ++ String.mk (t.data.drop (p.2.length + 2))
  | none => t

/-- The registered URI of a tag, as a (zero- or one-element) list. -/
def uriOfTag (t : String) : List String :=
  match NAMESPACES.find? (fun p => pyStartsWith t ("\x7b" ++ p.2 ++ "\x7d")) with
  | some p => [p.2]
  | none => []

mutual
/-- All namespace URIs used by tags of a tree. -/
def urisOf : Xml → List String
  | .elem t _ ch _ => uriOfTag t ++ urisOfL ch
/-- List version of `urisOf`. -/
def urisOfL : List Xml → List String
  | [] => []
  | x :: xs => urisOf x ++ urisOfL xs
end

/-- The registered prefix/URI pairs sorted by prefix (ElementTree emits
`xmlns` declarations sorted by prefix). -/
def sortedNS : List (String × String) :=
  [("qdt", nsQdt), ("ram", nsRam), ("rsm", nsRsm), ("udt", nsUdt)]

/-- The `xmlns:prefix="uri"` declarations for the namespaces a tree uses. -/
def xmlnsStr (x : Xml) : String :=
  String.join ((sortedNS.filter (fun p => (urisOf x).contains p.2)).map
    (fun p => " xmlns:" ++ p.1 ++ "=" ++ "\"" ++ escapeAttrib p.2 ++ "\""))

/-- Rendered attribute list, in insertion order. -/
def attrsStr (a : List (String × String)) : String :=
  String.join (a.map (fun p => " " ++ p.1 ++ "=" ++ "\"" ++ escapeAttrib p.2 ++ "\""))

mutual
/-- ElementTree `_serialize_xml` with default `short_empty_elements`. -/
def serializeXml : Xml → String
  | .elem t a ch tx =>
    "<" ++ qname t ++ attrsStr a ++
      (if tx = "" ∧ ch.isEmpty then " />"
       else ">" ++ escapeText tx ++ serializeL ch ++ "</" ++ qname t ++ ">")
/-- Serialised concatenation of a list of sibling elements. -/
def serializeL : List Xml → String
  | [] => ""
  | x :: xs => serializeXml x ++ serializeL xs
end

/-- Model of `ET.tostring(root, encoding="utf-8")`, decoded: for this exact
encoding string ElementTree emits no XML declaration, and the root
carries the `xmlns` declarations of the namespaces in use. -/
def xmlTostring : Xml → String
  | .elem t a ch tx =>
    "<" ++ qname t ++ xmlnsStr (.elem t a ch tx) ++ attrsStr a ++
      (if tx = "" ∧ ch.isEmpty then " />"
       else ">" ++ escapeText tx ++ serializeL ch ++ "</" ++ qname t ++ ">")

/-- The declaration the source prepends (line 306). -/
def xmlDecl : String := "<?xml version=\"1.0\" encoding=\"UTF-8\"?>\n"

/-- Lines 302-308: serialise and prepend the declaration when the
serialised text does not already start with `<?xml`. -/
def serializeDoc (x : Xml) : String :=
  let xml_str := xmlTostring x
  if !(pyStartsWith xml_str "<?xml") then xmlDecl ++ xml_str else xml_str

/-- Source `generate_facturx_xml(data)`: the full compiler, with `today`
(the impure `datetime.date.today()`) passed explicitly. -/
def generate_facturx_xml (today : PyDate) (d : InvoiceData) : Except Unit String :=
  match generateTree today d with
  | .error e => .error e
  | .ok t => .ok (serializeDoc t)

/-! ## Definitions taken from the specification wording (for refinement
comparison against the source), tag shortcuts, and concrete fixtures -/

/-- Negation on `ℚ` in kernel-reducible form; equals `-a` (`qneg_eq`). -/
def qneg (a : ℚ) : ℚ := Rat.divInt (-a.num) a.den

/-- Modelled from the spec wording of C6: "round-half-away-from-zero at 2
decimal places": scale by 100, add half, floor the magnitude, restore the
sign. -/
def spec_round_half_away2 (x : ℚ) : ℚ :=
  if Rat.divInt 0 1 ≤ x then
    Rat.divInt (Rat.floor (qadd (qmul x q100) (Rat.divInt 1 2))) 100
  else
    Rat.divInt (-(Rat.floor (qadd (qmul (qneg x) q100) (Rat.divInt 1 2)))) 100

/-- Modelled from the spec wording of C5: split the last address line on
the first space; if exactly one part is fully numeric that part is the
postcode and the other the city; if neither or both are numeric the first
part is the city and the second the postcode; a last line without space is
wholly the city.  Returns `(line_one, postcode, city)`. -/
def spec_address_split (lines : List String) : String × String × String :=
  let line_one := lines.headD ""
  if 1 < lines.length then
    let last_line := pyStrip ((lines.getLast?).getD "")
    match pySplitOnce last_line with
    | [p0, p1] =>
      if pyIsDigit p0 && !(pyIsDigit p1) then (line_one, p0, p1)
      else if pyIsDigit p1 && !(pyIsDigit p0) then (line_one, p1, p0)
      else (line_one, p1, p0)
    | _ => (line_one, "", last_line)
  else
    (line_one, "", "")

/-- Tag of `TaxBasisTotalAmount`. -/
def tagTaxBasis : String := ramT "TaxBasisTotalAmount"

/-- Tag of `TaxTotalAmount`. -/
def tagTaxTotal : String := ramT "TaxTotalAmount"

/-- Tag of `GrandTotalAmount`. -/
def tagGrand : String := ramT "GrandTotalAmount"

/-- Tag of `DuePayableAmount`. -/
def tagDue : String := ramT "DuePayableAmount"

/-- Tag of `SpecifiedTradeSettlementPaymentMeans`. -/
def tagPay : String := ramT "SpecifiedTradeSettlementPaymentMeans"

/-- Tag of `IBANID`. -/
def tagIban : String := ramT "IBANID"

/-- Tag of `ApplicableHeaderTradeDelivery`. -/
def tagDeliv : String := ramT "ApplicableHeaderTradeDelivery"

/-- Tag of `OccurrenceDateTime` (the element an occurrence date would
live in; the source never creates it). -/
def tagOcc : String := ramT "OccurrenceDateTime"

/-- Tag of `RateApplicablePercent`. -/
def tagRate : String := ramT "RateApplicablePercent"

/-- Tag of the header `CalculatedAmount`. -/
def tagCalc : String := ramT "CalculatedAmount"

/-- Tag of the header `BasisAmount`. -/
def tagBasisAmt : String := ramT "BasisAmount"

/-- Every tag occurring in `contextXml`. -/
def contextTags : List String :=
  [rsmT "ExchangedDocumentContext", ramT "GuidelineSpecifiedDocumentContextParameter",
   ramT "ID"]

/-- Every tag occurring in `exdocXml`. -/
def exdocTags : List String :=
  [rsmT "ExchangedDocument", ramT "ID", ramT "TypeCode", ramT "IssueDateTime",
   udtT "DateTimeString"]

/-- Every tag that can occur in a `lineFragment`. -/
def lineTags : List String :=
  [ramT "IncludedSupplyChainTradeLineItem", ramT "AssociatedDocumentLineDocument",
   ramT "LineID", ramT "SpecifiedTradeProduct", ramT "GlobalID", ramT "Name",
   ramT "SpecifiedLineTradeAgreement", ramT "NetPriceProductTradePrice",
   ramT "ChargeAmount", ramT "SpecifiedLineTradeDelivery", ramT "BilledQuantity",
   ramT "SpecifiedLineTradeSettlement", ramT "ApplicableTradeTax", ramT "TypeCode",
   ramT "CategoryCode", ramT "RateApplicablePercent",
   ramT "SpecifiedTradeSettlementLineMonetarySummation", ramT "LineTotalAmount"]

/-- Every tag that can occur in `agreementXml`. -/
def agreementTags : List String :=
  [ramT "ApplicableHeaderTradeAgreement", ramT "SellerTradeParty", ramT "Name",
   ramT "PostalTradeAddress", ramT "PostcodeCode", ramT "LineOne", ramT "CityName",
   ramT "CountryID", ramT "SpecifiedTaxRegistration", ramT "ID",
   ramT "AdditionalReferencedDocument", ramT "IssuerAssignedID", ramT "TypeCode",
   ramT "BuyerOrderReferencedDocument", ramT "BuyerTradeParty"]

/-- Tags of the two structural `rsm` wrappers. -/
def rootTags : List String := [rsmT "CrossIndustryInvoice", rsmT "SupplyChainTradeTransaction"]

/-- Fixture: a fixed "today". -/
def today0 : PyDate := ⟨2024, 1, 15⟩

/-- Fixture: the end-to-end line item of spec §8 (qty 10, price 100,
vat 19). -/
def item1 : Item :=
  ⟨some "Consulting", none, some (.num (qofInt 10)), none, some (.num (qofInt 100)), none,
   some (.num q19), none, none⟩

/-- Fixture: its parsed line. -/
def pl1 : ParsedLine := ⟨qofInt 100, qofInt 10, q19⟩

/-- Fixture: a complete one-line invoice with IBAN and tax id. -/
def d1 : InvoiceData :=
  ⟨some "INV-100", some ⟨2024, 1, 15⟩, none, none, [item1], none,
   some ⟨some "Acme GmbH", ["Main Street 1", "12345 Berlin"]⟩,
   some ⟨some "Buyer AG", ["Other Street 2", "54321 Hamburg"]⟩,
   some "DE123456789", none, none, none, some ⟨some "DE89 3704 0044 0532 0130 00"⟩⟩

/-- Fixture: an invoice without any footer/IBAN. -/
def d2 : InvoiceData :=
  ⟨some "INV-200", some ⟨2024, 2, 1⟩, none, none, [item1], none,
   some ⟨some "Acme GmbH", []⟩, some ⟨some "Buyer AG", []⟩,
   none, none, none, none, none⟩

/-- Fixture: an item whose quantity is the non-numeric string "abc". -/
def item3 : Item :=
  ⟨some "Bad", none, some (.str "abc"), none, some (.num (qofInt 5)), none, none, none, none⟩

/-- Fixture: an invoice containing `item3`. -/
def d3 : InvoiceData :=
  ⟨some "INV-300", some ⟨2024, 1, 15⟩, none, none, [item3], none, none, none, none, none,
   none, none, none⟩

/-- Fixture: an item with every numeric field absent. -/
def item0 : Item := ⟨some "Empty", none, none, none, none, none, none, none, none⟩

/-- Fixture: an item whose quantity is the parsable negative string
"-2.5". -/
def itemNeg : Item :=
  ⟨some "Neg", none, some (.str "-2.5"), none, some (.num (qofInt 5)), none, none, none, none⟩

/-- Fixture: an item whose price is the non-numeric string "abc". -/
def itemBadPrice : Item :=
  ⟨some "BadPrice", none, none, none, some (.str "abc"), none, none, none, none⟩

/-- Fixture: an invoice carrying a delivery-date range. -/
def d7 : InvoiceData :=
  ⟨some "INV-700", some ⟨2024, 3, 1⟩, none, some (.range ⟨2024, 2, 1⟩ ⟨2024, 2, 29⟩),
   [item1], none, some ⟨some "Acme GmbH", []⟩, some ⟨some "Buyer AG", []⟩, none, none,
   none, none, none⟩

/-- Fixture: the parsed line of `pl6` inputs qty 0.5, price 0.25, whose
net 0.125 is an exact half cent (and exactly representable in binary). -/
def pl6 : ParsedLine := ⟨Rat.divInt 1 4, Rat.divInt 1 2, q19⟩

/-- Fixture: an item with a reduced VAT rate of 7 percent. -/
def item7 : Item :=
  ⟨some "Reduced", none, some (.num (qofInt 2)), none, some (.num (qofInt 50)), none,
   some (.num (qofInt 7)), none, none⟩

/-- Fixture: its parsed line. -/
def pl7 : ParsedLine := ⟨qofInt 50, qofInt 2, qofInt 7⟩

/-- Fixture: an invoice whose only line uses the 7 percent rate. -/
def d10 : InvoiceData :=
  ⟨some "INV-1000", some ⟨2024, 1, 15⟩, none, none, [item7], none,
   some ⟨some "Acme GmbH", []⟩, some ⟨some "Buyer AG", []⟩, none, none, none, none, none⟩

/-- The tree a successful compilation produces (junk element on error);
used to state closed witness theorems. -/
def treeOf (today : PyDate) (d : InvoiceData) : Xml :=
  match generateTree today d with
  | .ok t => t
  | .error _ => .elem "" [] [] ""

/-- The string a successful compilation produces (empty on error). -/
def strOf (today : PyDate) (d : InvoiceData) : String :=
  match generate_facturx_xml today d with
  | .ok s => s
  | .error _ => ""

/-! ## Bridge lemmas for the arithmetic wrappers and list helpers -/

theorem qofInt_eq (n : ℤ) : qofInt n = (n : ℚ) := by
  rw [qofInt, Rat.divInt_eq_div]
  simp

theorem num_mul_den (a : ℚ) : ((a.num : ℚ)) = a * a.den := by
  have ha : ((a.den : ℚ)) ≠ 0 := Nat.cast_ne_zero.mpr a.den_nz
  exact (div_eq_iff ha).mp (Rat.num_div_den a)

theorem qadd_eq (a b : ℚ) : qadd a b = a + b := by
  rw [qadd, Rat.divInt_eq_div]
  have ha : ((a.den : ℚ)) ≠ 0 := Nat.cast_ne_zero.mpr a.den_nz
  have hb : ((b.den : ℚ)) ≠ 0 := Nat.cast_ne_zero.mpr b.den_nz
  rw [div_eq_iff (by push_cast; exact mul_ne_zero ha hb)]
  push_cast
  rw [num_mul_den a, num_mul_den b]
  ring

theorem qmul_eq (a b : ℚ) : qmul a b = a * b := by
  rw [qmul, Rat.divInt_eq_div]
  have ha : ((a.den : ℚ)) ≠ 0 := Nat.cast_ne_zero.mpr a.den_nz
  have hb : ((b.den : ℚ)) ≠ 0 := Nat.cast_ne_zero.mpr b.den_nz
  rw [div_eq_iff (by push_cast; exact mul_ne_zero ha hb)]
  push_cast
  rw [num_mul_den a, num_mul_den b]
  ring

theorem qdiv_eq (a b : ℚ) : qdiv a b = a / b := by
  rcases eq_or_ne b 0 with hb0 | hb0
  · subst hb0
    rw [qdiv]
    simp [Rat.divInt_eq_div]
  · rw [qdiv, Rat.divInt_eq_div]
    have ha : ((a.den : ℚ)) ≠ 0 := Nat.cast_ne_zero.mpr a.den_nz
    have hbn : ((b.num : ℚ)) ≠ 0 := by
      simpa using Rat.num_ne_zero.mpr hb0
    rw [div_eq_iff (by push_cast; exact mul_ne_zero ha hbn)]
    push_cast
    field_simp
    rw [num_mul_den a, num_mul_den b]
    ring

theorem qsum_eq (l : List ℚ) : qsum l = l.sum := by
  induction l with
  | nil =>
    rw [qsum]
    simp [qofInt_eq]
  | cons x xs ih =>
    rw [qsum] at ih ⊢
    simp [List.foldr, qadd_eq, ih]

theorem textsOfL_append (tag : String) (l m : List Xml) :
    textsOfL tag (l ++ m) = textsOfL tag l ++ textsOfL tag m := by
  induction l with
  | nil => simp [textsOfL]
  | cons x xs ih => simp [textsOfL, ih]

theorem findElemsL_append (tag : String) (l m : List Xml) :
    findElemsL tag (l ++ m) = findElemsL tag l ++ findElemsL tag m := by
  induction l with
  | nil => simp [findElemsL]
  | cons x xs ih => simp [findElemsL, ih]


/-! ## Helper lemmas: rounding -/

theorem qneg_eq (a : ℚ) : qneg a = -a := by
  rw [qneg, Rat.divInt_eq_div]
  have ha : ((a.den : ℚ)) ≠ 0 := Nat.cast_ne_zero.mpr a.den_nz
  push_cast
  rw [div_eq_iff ha]
  rw [num_mul_den a]
  ring

theorem ratFloor_eq (x : ℚ) : Rat.floor x = ⌊x⌋ := rfl

theorem half_divInt : Rat.divInt 1 2 = (1 : ℚ) / 2 := by
  rw [Rat.divInt_eq_div]
  norm_num

/-- Rounding `rhe` lands on a nearest integer, ties to the even one. -/
theorem rhe_spec (x : ℚ) :
    |x - (rhe x : ℚ)| ≤ 1 / 2 ∧ (|x - (rhe x : ℚ)| = 1 / 2 → rhe x % 2 = 0) := by
  have hf0 : ((⌊x⌋ : ℚ)) ≤ x := Int.floor_le x
  have hf1 : x < (⌊x⌋ : ℚ) + 1 := Int.lt_floor_add_one x
  rw [rhe, ratFloor_eq, qadd_eq, qofInt_eq, half_divInt]
  push_cast
  split_ifs with h1 h2 h3
  · constructor
    · rw [abs_of_nonneg (by linarith)]
      linarith
    · intro habs
      rw [abs_of_nonneg (by linarith)] at habs
      linarith
  · constructor
    · rw [abs_of_nonpos (by linarith)]
      linarith
    · intro habs
      rw [abs_of_nonpos (by linarith)] at habs
      linarith
  · have hx : x - (⌊x⌋ : ℚ) = 1 / 2 := by linarith
    constructor
    · rw [abs_of_nonneg (by linarith)]
      linarith
    · intro _
      exact h3
  · have hx : x - (⌊x⌋ : ℚ) = 1 / 2 := by linarith
    have hm : ⌊x⌋ % 2 = 1 := Int.emod_two_eq_zero_or_one _ |>.resolve_left h3
    constructor
    · rw [abs_of_nonpos (by linarith)]
      linarith
    · intro _
      omega

/-- Rounding `rhe` is the identity on integers. -/
theorem rhe_intCast (k : ℤ) : rhe ((k : ℚ)) = k := by
  rw [rhe, ratFloor_eq, qadd_eq, qofInt_eq, Int.floor_intCast, half_divInt]
  push_cast
  rw [if_pos (by norm_num)]

theorem pyRound2_div (x : ℚ) : pyRound2 x = ((rhe (qmul x q100) : ℤ) : ℚ) / 100 := by
  rw [pyRound2, Rat.divInt_eq_div]
  norm_num

theorem pyRound2_cent (k : ℤ) : pyRound2 ((k : ℚ) / 100) = (k : ℚ) / 100 := by
  have hq : qmul ((k : ℚ) / 100) q100 = (k : ℚ) := by
    rw [qmul_eq, q100, qofInt_eq]
    push_cast
    field_simp
  rw [pyRound2_div, hq, rhe_intCast]

theorem pyRound2_is_cent (x : ℚ) : ∃ k : ℤ, pyRound2 x = (k : ℚ) / 100 :=
  ⟨rhe (qmul x q100), pyRound2_div x⟩

theorem pyRound2_idem (x : ℚ) (h : ∃ k : ℤ, x = (k : ℚ) / 100) : pyRound2 x = x := by
  obtain ⟨k, hk⟩ := h
  rw [hk, pyRound2_cent]

theorem qsum_cents : ∀ l : List ℚ, (∀ y ∈ l, ∃ k : ℤ, y = (k : ℚ) / 100) →
    ∃ K : ℤ, qsum l = (K : ℚ) / 100 := by
  intro l
  induction l with
  | nil =>
    intro _
    refine ⟨0, ?_⟩
    rw [qsum_eq]
    simp
  | cons x xs ih =>
    intro h
    obtain ⟨k, hk⟩ := h x (by simp)
    obtain ⟨K, hK⟩ := ih (fun y hy => h y (by simp [hy]))
    refine ⟨k + K, ?_⟩
    rw [qsum_eq] at hK ⊢
    rw [List.sum_cons, hk, hK]
    push_cast
    rw [add_div]

theorem net_line_cent (pl : ParsedLine) : ∃ k : ℤ, net_line pl = (k : ℚ) / 100 :=
  pyRound2_is_cent _

theorem tax_line_cent (pl : ParsedLine) : ∃ k : ℤ, tax_line pl = (k : ℚ) / 100 :=
  pyRound2_is_cent _

theorem sum_net_cent (ls : List ParsedLine) : ∃ K : ℤ, qsum (ls.map net_line) = (K : ℚ) / 100 := by
  refine qsum_cents _ ?_
  intro y hy
  obtain ⟨pl, _, rfl⟩ := List.mem_map.mp hy
  exact net_line_cent pl

theorem sum_tax_cent (ls : List ParsedLine) : ∃ K : ℤ, qsum (ls.map tax_line) = (K : ℚ) / 100 := by
  refine qsum_cents _ ?_
  intro y hy
  obtain ⟨pl, _, rfl⟩ := List.mem_map.mp hy
  exact tax_line_cent pl

theorem grand_no_drift (sn st : ℚ) (hn : ∃ k : ℤ, sn = (k : ℚ) / 100)
    (ht : ∃ k : ℤ, st = (k : ℚ) / 100) :
    pyRound2 sn = sn ∧ pyRound2 st = st ∧
    pyRound2 (qadd (pyRound2 sn) (pyRound2 st)) = qadd sn st := by
  obtain ⟨k, hk⟩ := hn
  obtain ⟨m, hm⟩ := ht
  have h1 : pyRound2 sn = sn := pyRound2_idem _ ⟨k, hk⟩
  have h2 : pyRound2 st = st := pyRound2_idem _ ⟨m, hm⟩
  refine ⟨h1, h2, ?_⟩
  rw [h1, h2]
  have hsum : qadd sn st = ((k + m : ℤ) : ℚ) / 100 := by
    rw [qadd_eq, hk, hm]
    push_cast
    rw [add_div]
  rw [hsum, pyRound2_cent]

/-! ## Helper lemmas: locating elements in the built tree -/

theorem textsOf_context_nil (tag : String) (h : ¬ tag ∈ contextTags) :
    textsOf tag contextXml = [] := by
  simp [contextTags] at h
  obtain ⟨h1, h2, h3⟩ := h
  simp [contextXml, textsOf, textsOfL, h1, h2, h3]

theorem textsOf_exdoc_nil (tag : String) (today : PyDate) (d : InvoiceData)
    (h : ¬ tag ∈ exdocTags) : textsOf tag (exdocXml today d) = [] := by
  simp [exdocTags] at h
  obtain ⟨h1, h2, h3, h4, h5⟩ := h
  simp [exdocXml, textsOf, textsOfL, h1, h2, h3, h4, h5]

theorem textsOf_fragment_nil (tag uc : String) (idx : ℕ) (it : Item) (pl : ParsedLine)
    (h : ¬ tag ∈ lineTags) : textsOf tag (lineFragment uc idx it pl) = [] := by
  simp [lineTags] at h
  obtain ⟨h1, h2, h3, h4, h5, h6, h7, h8, h9, h10, h11, h12, h13, h14, h15, h16, h17, h18⟩ := h
  simp [lineFragment, textsOf, textsOfL, textsOfL_append, apply_ite (textsOfL tag),
        h1, h2, h3, h4, h5, h6, h7, h8, h9, h10, h11, h12, h13, h14, h15, h16, h17, h18]

theorem textsOfL_fragments_nil (tag uc : String) (h : ¬ tag ∈ lineTags) :
    ∀ (i : ℕ) (ps : List (Item × ParsedLine)), textsOfL tag (fragmentsOf uc i ps) = []
  | _, [] => by simp [fragmentsOf, textsOfL]
  | i, p :: ps => by
    rw [fragmentsOf, textsOfL, textsOf_fragment_nil tag uc i p.1 p.2 h,
        textsOfL_fragments_nil tag uc h (i + 1) ps]
    rfl

theorem textsOf_fragment_rate (uc : String) (idx : ℕ) (it : Item) (pl : ParsedLine) :
    textsOf tagRate (lineFragment uc idx it pl) = [fmt2 pl.vat] := by
  cases hg : (pyTruthy it.global_id && pyTruthy it.global_id_scheme) with
  | false =>
    simp only [lineFragment, hg]
    rfl
  | true =>
    simp only [lineFragment, hg]
    rfl

theorem textsOfL_fragments_rate (uc : String) :
    ∀ (i : ℕ) (ps : List (Item × ParsedLine)),
      textsOfL tagRate (fragmentsOf uc i ps) = ps.map (fun p => fmt2 p.2.vat)
  | _, [] => by simp [fragmentsOf, textsOfL]
  | i, p :: ps => by
    rw [fragmentsOf, textsOfL, textsOf_fragment_rate uc i p.1 p.2,
        textsOfL_fragments_rate uc (i + 1) ps]
    rfl

theorem textsOf_agreement_nil (tag : String) (d : InvoiceData) (h : ¬ tag ∈ agreementTags) :
    textsOf tag (agreementXml d) = [] := by
  simp [agreementTags] at h
  obtain ⟨h1, h2, h3, h4, h5, h6, h7, h8, h9, h10, h11, h12, h13, h14, h15⟩ := h
  simp [agreementXml, sellerXml, buyerXml, addrXml, taxRegXml, textsOf, textsOfL,
        textsOfL_append, apply_ite (textsOfL tag), apply_ite (textsOf tag),
        h1, h2, h3, h4, h5, h6, h7, h8, h9, h10, h11, h12, h13, h14, h15]

theorem textsOf_delivery_nil (tag : String) (h : ¬ tag = tagDeliv) :
    textsOf tag deliveryXml = [] := by
  simp [tagDeliv] at h
  simp [deliveryXml, textsOf, textsOfL, h]

theorem textsOf_settle_basis (today : PyDate) (d : InvoiceData) (tn tt : ℚ) :
    textsOf tagTaxBasis (settlementXml today d tn tt) = [fmt2 (pyRound2 tn)] := rfl

theorem textsOf_settle_taxTotal (today : PyDate) (d : InvoiceData) (tn tt : ℚ) :
    textsOf tagTaxTotal (settlementXml today d tn tt) = [fmt2 (pyRound2 tt)] := rfl

theorem textsOf_settle_grand (today : PyDate) (d : InvoiceData) (tn tt : ℚ) :
    textsOf tagGrand (settlementXml today d tn tt)
      = [fmt2 (pyRound2 (qadd (pyRound2 tn) (pyRound2 tt)))] := rfl

theorem textsOf_settle_due (today : PyDate) (d : InvoiceData) (tn tt : ℚ) :
    textsOf tagDue (settlementXml today d tn tt)
      = [fmt2 (pyRound2 (qadd (pyRound2 tn) (pyRound2 tt)))] := rfl

theorem textsOf_settle_rate (today : PyDate) (d : InvoiceData) (tn tt : ℚ) :
    textsOf tagRate (settlementXml today d tn tt) = ["19.00"] := rfl

theorem textsOf_settle_calc (today : PyDate) (d : InvoiceData) (tn tt : ℚ) :
    textsOf tagCalc (settlementXml today d tn tt) = [fmt2 tt] := rfl

theorem textsOf_settle_basisAmt (today : PyDate) (d : InvoiceData) (tn tt : ℚ) :
    textsOf tagBasisAmt (settlementXml today d tn tt) = [fmt2 tn] := rfl

theorem textsOf_settle_iban (today : PyDate) (d : InvoiceData) (tn tt : ℚ) :
    textsOf tagIban (settlementXml today d tn tt) = [ibanText d] := rfl

theorem textsOf_settle_occ (today : PyDate) (d : InvoiceData) (tn tt : ℚ) :
    textsOf tagOcc (settlementXml today d tn tt) = [] := rfl

theorem findElems_settle_pay (today : PyDate) (d : InvoiceData) (tn tt : ℚ) :
    findElems tagPay (settlementXml today d tn tt) = [paymentXml (ibanText d)] := rfl

theorem findElems_settle_deliv (today : PyDate) (d : InvoiceData) (tn tt : ℚ) :
    findElems tagDeliv (settlementXml today d tn tt) = [] := rfl

theorem findElems_settle_occ (today : PyDate) (d : InvoiceData) (tn tt : ℚ) :
    findElems tagOcc (settlementXml today d tn tt) = [] := rfl

theorem findElems_context_nil (tag : String) (h : ¬ tag ∈ contextTags) :
    findElems tag contextXml = [] := by
  simp [contextTags] at h
  obtain ⟨h1, h2, h3⟩ := h
  simp [contextXml, findElems, findElemsL, h1, h2, h3]

theorem findElems_exdoc_nil (tag : String) (today : PyDate) (d : InvoiceData)
    (h : ¬ tag ∈ exdocTags) : findElems tag (exdocXml today d) = [] := by
  simp [exdocTags] at h
  obtain ⟨h1, h2, h3, h4, h5⟩ := h
  simp [exdocXml, findElems, findElemsL, h1, h2, h3, h4, h5]

theorem findElems_fragment_nil (tag uc : String) (idx : ℕ) (it : Item) (pl : ParsedLine)
    (h : ¬ tag ∈ lineTags) : findElems tag (lineFragment uc idx it pl) = [] := by
  simp [lineTags] at h
  obtain ⟨h1, h2, h3, h4, h5, h6, h7, h8, h9, h10, h11, h12, h13, h14, h15, h16, h17, h18⟩ := h
  simp [lineFragment, findElems, findElemsL, findElemsL_append, apply_ite (findElemsL tag),
        h1, h2, h3, h4, h5, h6, h7, h8, h9, h10, h11, h12, h13, h14, h15, h16, h17, h18]

theorem findElemsL_fragments_nil (tag uc : String) (h : ¬ tag ∈ lineTags) :
    ∀ (i : ℕ) (ps : List (Item × ParsedLine)), findElemsL tag (fragmentsOf uc i ps) = []
  | _, [] => by simp [fragmentsOf, findElemsL]
  | i, p :: ps => by
    rw [fragmentsOf, findElemsL, findElems_fragment_nil tag uc i p.1 p.2 h,
        findElemsL_fragments_nil tag uc h (i + 1) ps]
    rfl

theorem findElems_agreement_nil (tag : String) (d : InvoiceData) (h : ¬ tag ∈ agreementTags) :
    findElems tag (agreementXml d) = [] := by
  simp [agreementTags] at h
  obtain ⟨h1, h2, h3, h4, h5, h6, h7, h8, h9, h10, h11, h12, h13, h14, h15⟩ := h
  simp [agreementXml, sellerXml, buyerXml, addrXml, taxRegXml, findElems, findElemsL,
        findElemsL_append, apply_ite (findElemsL tag), apply_ite (findElems tag),
        h1, h2, h3, h4, h5, h6, h7, h8, h9, h10, h11, h12, h13, h14, h15]

theorem findElems_delivery_nil (tag : String) (h : ¬ tag = tagDeliv) :
    findElems tag deliveryXml = [] := by
  simp [tagDeliv] at h
  simp [deliveryXml, findElems, findElemsL, h]

theorem findElems_delivery_self : findElems tagDeliv deliveryXml = [Xml.elem tagDeliv [] [] ""] := rfl

theorem textsOf_elem (tag t : String) (a : List (String × String)) (ch : List Xml) (tx : String) :
    textsOf tag (.elem t a ch tx) = (if tag = t then [tx] else []) ++ textsOfL tag ch := rfl

theorem textsOfL_cons (tag : String) (x : Xml) (xs : List Xml) :
    textsOfL tag (x :: xs) = textsOf tag x ++ textsOfL tag xs := rfl

theorem textsOfL_nil (tag : String) : textsOfL tag [] = [] := rfl

theorem findElems_elem (tag t : String) (a : List (String × String)) (ch : List Xml) (tx : String) :
    findElems tag (.elem t a ch tx) = (if tag = t then [Xml.elem t a ch tx] else []) ++ findElemsL tag ch := rfl

theorem findElemsL_cons (tag : String) (x : Xml) (xs : List Xml) :
    findElemsL tag (x :: xs) = findElems tag x ++ findElemsL tag xs := rfl

theorem findElemsL_nil (tag : String) : findElemsL tag [] = [] := rfl

theorem textsOf_buildTree (tag : String) (today : PyDate) (d : InvoiceData) (uc : String)
    (i : ℕ) (ps : List (Item × ParsedLine)) (tn tt : ℚ)
    (h0 : ¬ tag ∈ rootTags) (h1 : ¬ tag ∈ contextTags) (h2 : ¬ tag ∈ exdocTags)
    (h3 : ¬ tag ∈ lineTags) (h4 : ¬ tag ∈ agreementTags) :
    textsOf tag (buildTree today d (fragmentsOf uc i ps) tn tt)
      = textsOf tag deliveryXml ++ textsOf tag (settlementXml today d tn tt) := by
  simp [rootTags] at h0
  obtain ⟨h01, h02⟩ := h0
  simp [buildTree, textsOf_elem, textsOfL_cons, textsOfL_nil, textsOfL_append, h01, h02,
        textsOf_context_nil tag h1, textsOf_exdoc_nil tag today d h2,
        textsOfL_fragments_nil tag uc h3 i ps, textsOf_agreement_nil tag d h4]

theorem findElems_buildTree (tag : String) (today : PyDate) (d : InvoiceData) (uc : String)
    (i : ℕ) (ps : List (Item × ParsedLine)) (tn tt : ℚ)
    (h0 : ¬ tag ∈ rootTags) (h1 : ¬ tag ∈ contextTags) (h2 : ¬ tag ∈ exdocTags)
    (h3 : ¬ tag ∈ lineTags) (h4 : ¬ tag ∈ agreementTags) :
    findElems tag (buildTree today d (fragmentsOf uc i ps) tn tt)
      = findElems tag deliveryXml ++ findElems tag (settlementXml today d tn tt) := by
  simp [rootTags] at h0
  obtain ⟨h01, h02⟩ := h0
  simp [buildTree, findElems_elem, findElemsL_cons, findElemsL_nil, findElemsL_append, h01, h02,
        findElems_context_nil tag h1, findElems_exdoc_nil tag today d h2,
        findElemsL_fragments_nil tag uc h3 i ps, findElems_agreement_nil tag d h4]

theorem textsOf_buildTree_rate (today : PyDate) (d : InvoiceData) (uc : String)
    (i : ℕ) (ps : List (Item × ParsedLine)) (tn tt : ℚ) :
    textsOf tagRate (buildTree today d (fragmentsOf uc i ps) tn tt)
      = ps.map (fun p => fmt2 p.2.vat) ++ ["19.00"] := by
  simp [buildTree, textsOf_elem, textsOfL_cons, textsOfL_nil, textsOfL_append,
        textsOf_context_nil tagRate (by decide), textsOf_exdoc_nil tagRate today d (by decide),
        textsOfL_fragments_rate uc i ps, textsOf_agreement_nil tagRate d (by decide),
        textsOf_delivery_nil tagRate (by decide), textsOf_settle_rate,
        (by decide : ¬ tagRate = rsmT "CrossIndustryInvoice"),
        (by decide : ¬ tagRate = rsmT "SupplyChainTradeTransaction")]

theorem parseItems_length : ∀ (items : List Item) (ls : List ParsedLine),
    parseItems items = .ok ls → items.length = ls.length := by
  intro items
  induction items with
  | nil =>
    intro ls h
    rw [parseItems] at h
    injection h with h
    rw [← h]
    rfl
  | cons it its ih =>
    intro ls h
    rw [parseItems] at h
    cases hpl : parseLine it with
    | error e => rw [hpl] at h; exact absurd h (by simp)
    | ok pl =>
      rw [hpl] at h
      cases hps : parseItems its with
      | error e => rw [hps] at h; exact absurd h (by simp)
      | ok pls =>
        rw [hps] at h
        injection h with h
        rw [← h]
        simp [ih pls hps]

theorem zip_map_snd (f : ParsedLine → String) :
    ∀ (as : List Item) (bs : List ParsedLine), as.length = bs.length →
      (as.zip bs).map (fun p => f p.2) = bs.map f := by
  intro as
  induction as with
  | nil =>
    intro bs h
    have : bs = [] := by
      cases bs with
      | nil => rfl
      | cons b bs => simp at h
    rw [this]
    rfl
  | cons a as ih =>
    intro bs h
    cases bs with
    | nil => simp at h
    | cons b bs =>
      simp only [List.zip_cons_cons, List.map_cons]
      rw [ih bs (by simpa using h)]

/-! ## The claims -/

/-- C1: for every invoice with at least one line item, the
`TaxBasisTotalAmount` text in the compiled XML equals the sum of the line
nets (each net being `round(quantity * unit_price, 2)`) rounded to 2
decimals, the `GrandTotalAmount` equals `TaxBasisTotalAmount +
TaxTotalAmount` with both addends rounded to 2 decimals before summation,
and the `DuePayableAmount` equals the `GrandTotalAmount`. -/
theorem claim_C1_totals (today : PyDate) (d : InvoiceData) (ls : List ParsedLine) (tree : Xml)
    (_hne : d.items ≠ []) (hp : parseItems d.items = .ok ls)
    (ht : generateTree today d = .ok tree) :
    textsOf tagTaxBasis tree = [fmt2 (pyRound2 (qsum (ls.map net_line)))] ∧
    textsOf tagTaxBasis tree = [fmt2 (qsum (ls.map net_line))] ∧
    textsOf tagTaxTotal tree = [fmt2 (qsum (ls.map tax_line))] ∧
    textsOf tagGrand tree
      = [fmt2 (qadd (pyRound2 (qsum (ls.map net_line))) (pyRound2 (qsum (ls.map tax_line))))] ∧
    textsOf tagGrand tree = [fmt2 (qadd (qsum (ls.map net_line)) (qsum (ls.map tax_line)))] ∧
    textsOf tagDue tree = textsOf tagGrand tree := by
  simp only [generateTree, compileItems, hp, Except.ok.injEq] at ht
  subst ht
  obtain ⟨hA, hB, hC⟩ := grand_no_drift _ _ (sum_net_cent ls) (sum_tax_cent ls)
  have e1 := textsOf_buildTree tagTaxBasis today d (d.unit_code.getD "HUR") 1 (d.items.zip ls)
    (qsum (ls.map net_line)) (qsum (ls.map tax_line))
    (by decide) (by decide) (by decide) (by decide) (by decide)
  have e2 := textsOf_buildTree tagTaxTotal today d (d.unit_code.getD "HUR") 1 (d.items.zip ls)
    (qsum (ls.map net_line)) (qsum (ls.map tax_line))
    (by decide) (by decide) (by decide) (by decide) (by decide)
  have e3 := textsOf_buildTree tagGrand today d (d.unit_code.getD "HUR") 1 (d.items.zip ls)
    (qsum (ls.map net_line)) (qsum (ls.map tax_line))
    (by decide) (by decide) (by decide) (by decide) (by decide)
  have e4 := textsOf_buildTree tagDue today d (d.unit_code.getD "HUR") 1 (d.items.zip ls)
    (qsum (ls.map net_line)) (qsum (ls.map tax_line))
    (by decide) (by decide) (by decide) (by decide) (by decide)
  rw [e1, e2, e3, e4, textsOf_settle_basis, textsOf_settle_taxTotal, textsOf_settle_grand,
      textsOf_settle_due, textsOf_delivery_nil tagTaxBasis (by decide),
      textsOf_delivery_nil tagTaxTotal (by decide), textsOf_delivery_nil tagGrand (by decide),
      textsOf_delivery_nil tagDue (by decide)]
  simp only [List.nil_append]
  refine ⟨trivial, ?_, ?_, ?_, ?_, trivial⟩
  · rw [hA]
  · rw [hB]
  · rw [hC]
    congr 1
    rw [hA, hB]
  · rw [hC]

/-- C1 witness: the spec §8 end-to-end invoice (one line, qty 10, price
100, vat 19) evaluated concretely. -/
theorem claim_C1_wit :
    textsOf tagTaxBasis (treeOf today0 d1) = [fmt2 (pyRound2 (qsum ([pl1].map net_line)))] ∧
    textsOf tagTaxBasis (treeOf today0 d1) = [fmt2 (qsum ([pl1].map net_line))] ∧
    textsOf tagTaxTotal (treeOf today0 d1) = [fmt2 (qsum ([pl1].map tax_line))] ∧
    textsOf tagGrand (treeOf today0 d1)
      = [fmt2 (qadd (pyRound2 (qsum ([pl1].map net_line))) (pyRound2 (qsum ([pl1].map tax_line))))] ∧
    textsOf tagGrand (treeOf today0 d1)
      = [fmt2 (qadd (qsum ([pl1].map net_line)) (qsum ([pl1].map tax_line)))] ∧
    textsOf tagDue (treeOf today0 d1) = textsOf tagGrand (treeOf today0 d1) :=
  claim_C1_totals today0 d1 [pl1] (treeOf today0 d1) (List.cons_ne_nil _ _) (by rfl) (by rfl)

/-- C2 counterexample: `d2` carries no footer and hence no IBAN, yet the
compiled XML contains one `SpecifiedTradeSettlementPaymentMeans` element
(with an empty `IBANID`), refuting "no payment-means element is emitted
when the IBAN is absent". -/
theorem claim_C2_cex :
    d2.footer = none ∧
    (generateTree today0 d2).map (fun t => (findElems tagPay t).length) = .ok 1 ∧
    (generateTree today0 d2).map (textsOf tagIban) = .ok [""] :=
  ⟨rfl, rfl, rfl⟩

/-- C2 amended: the compiled XML always contains exactly one
`SpecifiedTradeSettlementPaymentMeans` element (IBAN present or not),
whose `IBANID` text is the IBAN with spaces removed — the empty string
when no IBAN is given. -/
theorem claim_C2_payment_always (today : PyDate) (d : InvoiceData) (tree : Xml)
    (ht : generateTree today d = .ok tree) :
    findElems tagPay tree = [paymentXml (ibanText d)] ∧
    textsOf tagIban tree = [ibanText d] := by
  cases hp : parseItems d.items with
  | error e => simp [generateTree, compileItems, hp] at ht
  | ok ls =>
    simp only [generateTree, compileItems, hp, Except.ok.injEq] at ht
    subst ht
    have e1 := findElems_buildTree tagPay today d (d.unit_code.getD "HUR") 1 (d.items.zip ls)
      (qsum (ls.map net_line)) (qsum (ls.map tax_line))
      (by decide) (by decide) (by decide) (by decide) (by decide)
    have e2 := textsOf_buildTree tagIban today d (d.unit_code.getD "HUR") 1 (d.items.zip ls)
      (qsum (ls.map net_line)) (qsum (ls.map tax_line))
      (by decide) (by decide) (by decide) (by decide) (by decide)
    rw [e1, e2, findElems_settle_pay, textsOf_settle_iban,
        findElems_delivery_nil tagPay (by decide), textsOf_delivery_nil tagIban (by decide)]
    simp

/-- C2 witness: the amended statement evaluated on the IBAN-carrying
fixture `d1`. -/
theorem claim_C2_wit :
    findElems tagPay (treeOf today0 d1) = [paymentXml (ibanText d1)] ∧
    textsOf tagIban (treeOf today0 d1) = [ibanText d1] :=
  claim_C2_payment_always today0 d1 (treeOf today0 d1) (by rfl)

/-- C7 counterexample: `d7` carries a delivery-date range, yet the
compiled XML's `ApplicableHeaderTradeDelivery` element is empty and no
`OccurrenceDateTime` exists anywhere, refuting "the trade delivery block
contains the occurrence date". -/
theorem claim_C7_cex :
    d7.delivery_date ≠ none ∧
    (generateTree today0 d7).map (findElems tagDeliv) = .ok [Xml.elem tagDeliv [] [] ""] ∧
    (generateTree today0 d7).map (findElems tagOcc) = .ok [] :=
  ⟨fun h => Option.noConfusion h, rfl, rfl⟩

/-- C7 amended: even when a delivery/service date is present on the
record, the compiled XML's trade delivery block is a childless
`ApplicableHeaderTradeDelivery` element, and no occurrence date element
is emitted anywhere; the delivery date reaches only the PDF rendering. -/
theorem claim_C7_delivery_empty (today : PyDate) (d : InvoiceData) (tree : Xml)
    (_hd : d.delivery_date ≠ none) (ht : generateTree today d = .ok tree) :
    findElems tagDeliv tree = [Xml.elem tagDeliv [] [] ""] ∧
    findElems tagOcc tree = [] ∧
    textsOf tagOcc tree = [] := by
  cases hp : parseItems d.items with
  | error e => simp [generateTree, compileItems, hp] at ht
  | ok ls =>
    simp only [generateTree, compileItems, hp, Except.ok.injEq] at ht
    subst ht
    have e1 := findElems_buildTree tagDeliv today d (d.unit_code.getD "HUR") 1 (d.items.zip ls)
      (qsum (ls.map net_line)) (qsum (ls.map tax_line))
      (by decide) (by decide) (by decide) (by decide) (by decide)
    have e2 := findElems_buildTree tagOcc today d (d.unit_code.getD "HUR") 1 (d.items.zip ls)
      (qsum (ls.map net_line)) (qsum (ls.map tax_line))
      (by decide) (by decide) (by decide) (by decide) (by decide)
    have e3 := textsOf_buildTree tagOcc today d (d.unit_code.getD "HUR") 1 (d.items.zip ls)
      (qsum (ls.map net_line)) (qsum (ls.map tax_line))
      (by decide) (by decide) (by decide) (by decide) (by decide)
    rw [e1, e2, e3, findElems_delivery_self, findElems_settle_deliv, findElems_settle_occ,
        findElems_delivery_nil tagOcc (by decide), textsOf_settle_occ,
        textsOf_delivery_nil tagOcc (by decide)]
    simp [tagDeliv]

/-- C7 witness: the amended statement evaluated on `d7`. -/
theorem claim_C7_wit :
    findElems tagDeliv (treeOf today0 d7) = [Xml.elem tagDeliv [] [] ""] ∧
    findElems tagOcc (treeOf today0 d7) = [] ∧
    textsOf tagOcc (treeOf today0 d7) = [] :=
  claim_C7_delivery_empty today0 d7 (treeOf today0 d7) (fun h => Option.noConfusion h) (by rfl)

/-- C10: the header tax breakdown's `RateApplicablePercent` is the fixed
literal `"19.00"` regardless of per-line rates (the rate texts of the
compiled XML are the per-line formatted rates followed by the fixed
header literal), while the header `CalculatedAmount` and `BasisAmount`
are accumulated from the actual per-line rates; when every line uses a
rate other than 19, the header rate value matches none of them. -/
theorem claim_C10_header_rate (today : PyDate) (d : InvoiceData) (ls : List ParsedLine)
    (tree : Xml) (hp : parseItems d.items = .ok ls) (ht : generateTree today d = .ok tree) :
    textsOf tagRate tree = ls.map (fun l => fmt2 l.vat) ++ ["19.00"] ∧
    textsOf tagCalc tree = [fmt2 (qsum (ls.map tax_line))] ∧
    textsOf tagBasisAmt tree = [fmt2 (qsum (ls.map net_line))] ∧
    ((∀ l ∈ ls, l.vat ≠ q19) → ¬ q19 ∈ ls.map ParsedLine.vat) := by
  simp only [generateTree, compileItems, hp, Except.ok.injEq] at ht
  subst ht
  refine ⟨?_, ?_, ?_, ?_⟩
  · rw [textsOf_buildTree_rate]
    congr 1
    exact zip_map_snd (fun l => fmt2 l.vat) d.items ls (parseItems_length _ _ hp)
  · have e := textsOf_buildTree tagCalc today d (d.unit_code.getD "HUR") 1 (d.items.zip ls)
      (qsum (ls.map net_line)) (qsum (ls.map tax_line))
      (by decide) (by decide) (by decide) (by decide) (by decide)
    rw [e, textsOf_settle_calc, textsOf_delivery_nil tagCalc (by decide)]
    simp
  · have e := textsOf_buildTree tagBasisAmt today d (d.unit_code.getD "HUR") 1 (d.items.zip ls)
      (qsum (ls.map net_line)) (qsum (ls.map tax_line))
      (by decide) (by decide) (by decide) (by decide) (by decide)
    rw [e, textsOf_settle_basisAmt, textsOf_delivery_nil tagBasisAmt (by decide)]
    simp
  · intro h19
    simp only [List.mem_map]
    rintro ⟨l, hl, hv⟩
    exact h19 l hl hv

/-- C10 witness: the 7-percent invoice `d10` evaluated concretely. -/
theorem claim_C10_wit :
    textsOf tagRate (treeOf today0 d10) = [pl7].map (fun l => fmt2 l.vat) ++ ["19.00"] ∧
    textsOf tagCalc (treeOf today0 d10) = [fmt2 (qsum ([pl7].map tax_line))] ∧
    textsOf tagBasisAmt (treeOf today0 d10) = [fmt2 (qsum ([pl7].map net_line))] ∧
    ((∀ l ∈ [pl7], l.vat ≠ q19) → ¬ q19 ∈ [pl7].map ParsedLine.vat) :=
  claim_C10_header_rate today0 d10 [pl7] (treeOf today0 d10) (by rfl) (by rfl)

/-- C8: the compiler is deterministic: its output does not depend on the
ambient `today` clock (the only run-varying input) whenever the record
carries an issue date, as the input contract requires; two compilations
of the same record therefore yield the identical string. -/
theorem claim_C8_deterministic (t1 t2 : PyDate) (d : InvoiceData) (dt : PyDate)
    (h : d.date = some dt) :
    generate_facturx_xml t1 d = generate_facturx_xml t2 d := by
  cases hc : compileItems (d.unit_code.getD "HUR") d.items with
  | error e => simp [generate_facturx_xml, generateTree, hc]
  | ok v =>
    obtain ⟨frs, tn, tt⟩ := v
    simp [generate_facturx_xml, generateTree, hc, buildTree, exdocXml, settlementXml,
          termsXml, h]

/-- C8 witness: `d1` compiled under two different clock dates. -/
theorem claim_C8_wit :
    generate_facturx_xml ⟨2024, 1, 15⟩ d1 = generate_facturx_xml ⟨2030, 6, 1⟩ d1 :=
  claim_C8_deterministic ⟨2024, 1, 15⟩ ⟨2030, 6, 1⟩ d1 ⟨2024, 1, 15⟩ (by rfl)

/-- C9: every successfully compiled XML text begins with the exact
declaration `<?xml version="1.0" encoding="UTF-8"?>` (double quotes,
upper-case UTF-8): ElementTree emits no declaration for encoding
`"utf-8"`, so the source's own declaration is always prepended. -/
theorem claim_C9_decl (today : PyDate) (d : InvoiceData) (s : String)
    (h : generate_facturx_xml today d = .ok s) :
    ("<?xml version=\"1.0\" encoding=\"UTF-8\"?>").data <+: s.data := by
  cases hg : generateTree today d with
  | error e => simp [generate_facturx_xml, hg] at h
  | ok t =>
    simp only [generate_facturx_xml, hg, Except.ok.injEq] at h
    subst h
    cases hp : parseItems d.items with
    | error e => simp [generateTree, compileItems, hp] at hg
    | ok ls =>
      simp only [generateTree, compileItems, hp, Except.ok.injEq] at hg
      subst hg
      have hns : pyStartsWith
          (xmlTostring (buildTree today d (fragmentsOf (d.unit_code.getD "HUR") 1
            (d.items.zip ls)) (qsum (ls.map net_line)) (qsum (ls.map tax_line)))) "<?xml"
          = false := rfl
      rw [serializeDoc]
      rw [hns]
      simp only [Bool.not_false, if_true]
      have hx : xmlDecl.data
          = ("<?xml version=\"1.0\" encoding=\"UTF-8\"?>").data ++ ['\n'] := rfl
      rw [String.data_append, hx, List.append_assoc]
      exact List.prefix_append _ _

/-- C9 witness: the declaration prefix checked on the fully serialised
fixture `d1`. -/
theorem claim_C9_wit :
    ("<?xml version=\"1.0\" encoding=\"UTF-8\"?>").data <+: (strOf today0 d1).data :=
  claim_C9_decl today0 d1 (strOf today0 d1) (by rfl)

/-- C3 counterexample: `d3`'s only item has the non-numeric quantity
string "abc"; compilation raises (`Except.error`) instead of defaulting
the value to 0 and completing, refuting "compilation is total". -/
theorem claim_C3_cex :
    d3.items.map (fun it => it.qty) = [some (.str "abc")] ∧
    generate_facturx_xml today0 d3 = .error () :=
  ⟨rfl, rfl⟩

/-- Decomposition of a successful `parseLine`: each field of the result
is the successful `float(...)` of the corresponding raw value. -/
theorem parseLine_ok_parts (it : Item) (pl : ParsedLine) (h : parseLine it = .ok pl) :
    pyFloat (priceRaw it) = .ok pl.price ∧ pyFloat (qtyRaw it) = .ok pl.qty ∧
    pyFloat (vatRaw it) = .ok pl.vat := by
  cases hp : pyFloat (priceRaw it) with
  | error e => simp [parseLine, hp] at h
  | ok p =>
    cases hq : pyFloat (qtyRaw it) with
    | error e => simp [parseLine, hp, hq] at h
    | ok q =>
      cases hv : pyFloat (vatRaw it) with
      | error e => simp [parseLine, hp, hq, hv] at h
      | ok v =>
        simp only [parseLine, hp, hq, hv, Except.ok.injEq] at h
        rw [← h]
        exact ⟨rfl, rfl, rfl⟩

/-- A string on which `float()` raises has no finite parse. -/
theorem pyRaises_none (s : String) (h : pyRaises s = true) : parsePyFloat s = none := by
  rw [pyRaises, Bool.and_eq_true, Option.isNone_iff_eq_none] at h
  exact h.1

/-- The item loop raises as soon as any member raises. -/
theorem parseItems_error_of_mem : ∀ (items : List Item) (it : Item), it ∈ items →
    parseLine it = .error () → parseItems items = .error () := by
  intro items
  induction items with
  | nil =>
    intro it h
    simp at h
  | cons a as ih =>
    intro it hmem herr
    rcases List.mem_cons.mp hmem with rfl | hmem2
    · simp only [parseItems, herr]
    · cases ha : parseLine a with
      | error e => simp only [parseItems, ha]
      | ok pl => simp only [parseItems, ha, ih it hmem2 herr]

/-- C3 amended: through the `dict.get` defaults, an absent quantity or
price key parses as 0 and an absent VAT key as 19; any string value that
`float()` parses — negative numbers included — is used exactly as parsed
(no non-negativity check); but an item whose price string, or whose
quantity string (once the price call succeeded), makes `float()` raise
aborts the entire compilation wherever the item sits in the list: no XML
is produced for any line. -/
theorem claim_C3_defaults :
    (∀ (it : Item) (pl : ParsedLine), parseLine it = .ok pl →
        it.qty = none → it.qtyAlt = none → pl.qty = 0) ∧
    (∀ (it : Item) (pl : ParsedLine), parseLine it = .ok pl →
        it.price = none → it.priceAlt = none → pl.price = 0) ∧
    (∀ (it : Item) (pl : ParsedLine), parseLine it = .ok pl →
        it.vat_percent = none → pl.vat = 19) ∧
    (∀ (it : Item) (pl : ParsedLine) (s : String) (q : ℚ), parseLine it = .ok pl →
        it.price = some (.str s) → parsePyFloat s = some q → pl.price = q) ∧
    (∀ (it : Item) (pl : ParsedLine) (s : String) (q : ℚ), parseLine it = .ok pl →
        it.qty = some (.str s) → parsePyFloat s = some q → pl.qty = q) ∧
    (∀ (it : Item) (s : String), priceRaw it = .str s → pyRaises s = true →
        parseLine it = .error ()) ∧
    (∀ (it : Item) (s : String), (∃ p : ℚ, pyFloat (priceRaw it) = .ok p) →
        qtyRaw it = .str s → pyRaises s = true → parseLine it = .error ()) ∧
    (∀ (today : PyDate) (d : InvoiceData) (it : Item), it ∈ d.items →
        parseLine it = .error () → generate_facturx_xml today d = .error ()) := by
  refine ⟨?_, ?_, ?_, ?_, ?_, ?_, ?_, ?_⟩
  · intro it pl h h1 h2
    obtain ⟨_, hq, _⟩ := parseLine_ok_parts it pl h
    have hqr : qtyRaw it = .num (qofInt 0) := by simp [qtyRaw, h1, h2]
    rw [hqr] at hq
    simp only [pyFloat, Except.ok.injEq] at hq
    rw [← hq, qofInt_eq]
    simp
  · intro it pl h h1 h2
    obtain ⟨hp, _, _⟩ := parseLine_ok_parts it pl h
    have hpr : priceRaw it = .num (qofInt 0) := by simp [priceRaw, h1, h2]
    rw [hpr] at hp
    simp only [pyFloat, Except.ok.injEq] at hp
    rw [← hp, qofInt_eq]
    simp
  · intro it pl h h1
    obtain ⟨_, _, hv⟩ := parseLine_ok_parts it pl h
    have hvr : vatRaw it = .num q19 := by simp [vatRaw, h1]
    rw [hvr] at hv
    simp only [pyFloat, Except.ok.injEq] at hv
    rw [← hv, q19, qofInt_eq]
    norm_num
  · intro it pl s q h h1 h2
    obtain ⟨hp, _, _⟩ := parseLine_ok_parts it pl h
    have hpr : priceRaw it = .str s := by simp [priceRaw, h1]
    rw [hpr] at hp
    simp only [pyFloat, h2, Except.ok.injEq] at hp
    exact hp.symm
  · intro it pl s q h h1 h2
    obtain ⟨_, hq, _⟩ := parseLine_ok_parts it pl h
    have hqr : qtyRaw it = .str s := by simp [qtyRaw, h1]
    rw [hqr] at hq
    simp only [pyFloat, h2, Except.ok.injEq] at hq
    exact hq.symm
  · intro it s hpr hz
    have hperr : pyFloat (priceRaw it) = .error () := by
      rw [hpr]
      simp [pyFloat, pyRaises_none s hz]
    simp only [parseLine, hperr]
  · intro it s hex hqr hz
    obtain ⟨p, hp⟩ := hex
    have hqerr : pyFloat (qtyRaw it) = .error () := by
      rw [hqr]
      simp [pyFloat, pyRaises_none s hz]
    simp only [parseLine, hp, hqerr]
  · intro today d it hmem herr
    have hpi : parseItems d.items = .error () := parseItems_error_of_mem d.items it hmem herr
    simp [generate_facturx_xml, generateTree, compileItems, hpi]

/-- C3 witness: the absent-key defaults on `item0` (all keys absent) and
`itemBadPrice`/`item3`; the parsed negative quantity "-2.5" of `itemNeg`
used as-is; the raise on the bad price string, on the bad quantity string
with a good price, and the whole-compilation abort on the concrete
invoice `d3`. -/
theorem claim_C3_wit :
    (ParsedLine.mk (qofInt 0) (qofInt 0) q19).qty = 0 ∧
    (ParsedLine.mk (qofInt 0) (qofInt 0) q19).price = 0 ∧
    (ParsedLine.mk (qofInt 0) (qofInt 0) q19).vat = 19 ∧
    (ParsedLine.mk (qofInt 5) (Rat.divInt (-25) 10) q19).qty = Rat.divInt (-25) 10 ∧
    parseLine itemBadPrice = .error () ∧
    parseLine item3 = .error () ∧
    generate_facturx_xml today0 d3 = .error () := by
  refine ⟨?_, ?_, ?_, ?_, ?_, ?_, ?_⟩
  · exact (claim_C3_defaults).1 item0 ⟨qofInt 0, qofInt 0, q19⟩ (by rfl) rfl rfl
  · exact (claim_C3_defaults).2.1 item0 ⟨qofInt 0, qofInt 0, q19⟩ (by rfl) rfl rfl
  · exact (claim_C3_defaults).2.2.1 item0 ⟨qofInt 0, qofInt 0, q19⟩ (by rfl) rfl
  · exact (claim_C3_defaults).2.2.2.2.1 itemNeg ⟨qofInt 5, Rat.divInt (-25) 10, q19⟩ "-2.5"
      (Rat.divInt (-25) 10) (by rfl) rfl (by rfl)
  · exact (claim_C3_defaults).2.2.2.2.2.1 itemBadPrice "abc" rfl (by rfl)
  · exact (claim_C3_defaults).2.2.2.2.2.2.1 item3 "abc" ⟨qofInt 5, by rfl⟩ rfl (by rfl)
  · exact (claim_C3_defaults).2.2.2.2.2.2.2 today0 d3 item3 (List.mem_singleton.mpr rfl)
      (by rfl)

/-- C4 counterexample: a whitespace-only tax id is truthy in Python, so
the classifier returns `("", "FC")` rather than null; and a cleaned id of
exactly two alphabetic characters ("DE") classifies as "FC" because the
source requires `len > 2`, refuting both the null clause and the
two-character clause of the claim. -/
theorem claim_C4_cex :
    get_tax_scheme (some " ") = (some "", some "FC") ∧
    get_tax_scheme (some " ") ≠ (none, none) ∧
    get_tax_scheme (some "DE") = (some "DE", some "FC") ∧
    (get_tax_scheme (some "DE")).2 ≠ some "VA" :=
  ⟨rfl, by decide, rfl, by decide⟩

/-- C4 amended: the classifier returns null exactly on `None` and the
empty string; any other input (whitespace-only included) is cleaned by
removing spaces and stripping, and classifies as "VA" only when the
cleaned id is longer than two characters with its first two characters
alphabetic, otherwise "FC". -/
theorem claim_C4_classifier (s : String) :
    get_tax_scheme none = (none, none) ∧
    get_tax_scheme (some "") = (none, none) ∧
    (s ≠ "" →
      get_tax_scheme (some s) =
        (some (pyStrip (removeSpaces s)),
         some (if 2 < (pyStrip (removeSpaces s)).data.length ∧
                  ((pyStrip (removeSpaces s)).data.take 2).all Char.isAlpha
               then "VA" else "FC"))) := by
  refine ⟨rfl, rfl, ?_⟩
  intro h
  have ht : pyTruthy (some s) = true := by simp [pyTruthy, h]
  simp only [get_tax_scheme, ht, Bool.not_true, Bool.false_eq_true, if_false, Option.getD_some]
  split_ifs with hc
  · rfl
  · rfl

/-- C4 witness: a VAT id with an internal space evaluated concretely. -/
theorem claim_C4_wit : get_tax_scheme (some "DE 123") = (some "DE123", some "VA") := by
  have h := (claim_C4_classifier "DE 123").2.2 (by decide)
  rw [h]
  rfl

/-- C5 counterexample: for a last line whose two parts are both fully
numeric ("12345 67890") the source takes the FIRST part as the postcode,
while the claim's tie-break ("if neither or both parts are numeric, the
first part becomes the city") predicts the opposite assignment. -/
theorem claim_C5_cex :
    parse_address_fields ["A", "12345 67890"] = ("A", "12345", "67890") ∧
    spec_address_split ["A", "12345 67890"] = ("A", "67890", "12345") ∧
    parse_address_fields ["A", "12345 67890"] ≠ spec_address_split ["A", "12345 67890"] :=
  ⟨rfl, rfl, by decide⟩

/-- C5 amended: with more than one address line, the stripped last line
split on the first space gives `(postcode, city) = (p0, p1)` whenever the
first part `p0` is fully numeric (both-numeric included), and
`(p1, p0)` otherwise (whether or not `p1` is numeric); a last line
without a space becomes the city with an empty postcode. -/
theorem claim_C5_address (l0 : String) (rest : List String) (hne : rest ≠ []) :
    (∀ p0 p1 : String,
        pySplitOnce (pyStrip (((l0 :: rest).getLast?).getD "")) = [p0, p1] →
        parse_address_fields (l0 :: rest)
          = (l0, if pyIsDigit p0 then p0 else p1, if pyIsDigit p0 then p1 else p0)) ∧
    (∀ u : String,
        pySplitOnce (pyStrip (((l0 :: rest).getLast?).getD "")) = [u] →
        parse_address_fields (l0 :: rest)
          = (l0, "", pyStrip (((l0 :: rest).getLast?).getD ""))) := by
  have hlen : 1 < (l0 :: rest).length := by
    cases rest with
    | nil => exact absurd rfl hne
    | cons r rs => simp
  constructor
  · intro p0 p1 hsplit
    simp only [parse_address_fields, List.headD_cons, hlen, if_true, hsplit]
    cases h0 : pyIsDigit p0 <;> simp [h0]
  · intro u hsplit
    simp only [parse_address_fields, List.headD_cons, hlen, if_true, hsplit]

/-- C5 witness: the spec §8 address example evaluated concretely. -/
theorem claim_C5_wit :
    parse_address_fields ["Main Street 1", "12345 Berlin"]
      = ("Main Street 1", "12345", "Berlin") := by
  have h := (claim_C5_address "Main Street 1" ["12345 Berlin"]
    (List.cons_ne_nil _ _)).1 "12345" "Berlin" (by rfl)
  rw [h]
  rfl

/-- C6 counterexample: the net of qty 0.5 at price 0.25 is 0.125
(an exact half cent, exactly representable in binary); the source
(CPython `round`) yields 0.12 — ties to even — while the claimed
round-half-away-from-zero yields 0.13; display formatting agrees with
the source. -/
theorem claim_C6_cex :
    net_line pl6 = Rat.divInt 12 100 ∧
    spec_round_half_away2 (qmul pl6.price pl6.qty) = Rat.divInt 13 100 ∧
    net_line pl6 ≠ spec_round_half_away2 (qmul pl6.price pl6.qty) ∧
    format_de (some (.num (Rat.divInt 1 8))) = "0,12" ∧
    fmt2 (Rat.divInt 1 8) = "0.12" :=
  ⟨rfl, rfl, by decide, rfl, rfl⟩

/-- C6 amended: the compiler's monetary rounding (here the line net) is
round-half-to-even at 2 decimal places: the result is a whole number of
cents within half a cent of the exact value, and an exact half-cent tie
lands on the even cent. -/
theorem claim_C6_rounding (u q : ℚ) :
    ∃ k : ℤ, net_line ⟨u, q, 19⟩ = (k : ℚ) / 100 ∧
      |u * q - (k : ℚ) / 100| ≤ 1 / 200 ∧
      (|u * q - (k : ℚ) / 100| = 1 / 200 → k % 2 = 0) := by
  have he : qmul (qmul u q) q100 = u * q * 100 := by
    rw [qmul_eq, qmul_eq, q100, qofInt_eq]
    push_cast
    ring
  refine ⟨rhe (qmul (qmul u q) q100), pyRound2_div _, ?_, ?_⟩
  · have h := (rhe_spec (qmul (qmul u q) q100)).1
    rw [he] at h ⊢
    have hscale : u * q - ((rhe (u * q * 100) : ℤ) : ℚ) / 100
        = (u * q * 100 - (rhe (u * q * 100) : ℤ)) / 100 := by ring
    rw [hscale, abs_div]
    have h100 : |(100 : ℚ)| = 100 := by norm_num
    rw [h100]
    linarith
  · intro habs
    rw [he] at habs ⊢
    have hscale : u * q - ((rhe (u * q * 100) : ℤ) : ℚ) / 100
        = (u * q * 100 - (rhe (u * q * 100) : ℤ)) / 100 := by ring
    rw [hscale, abs_div] at habs
    have h100 : |(100 : ℚ)| = 100 := by norm_num
    rw [h100] at habs
    refine (rhe_spec (u * q * 100)).2 ?_
    linarith

/-- C6 witness: the half-even characterisation instantiated at
price 0.25, qty 0.5. -/
theorem claim_C6_wit :
    ∃ k : ℤ, net_line ⟨Rat.divInt 1 4, Rat.divInt 1 2, 19⟩ = (k : ℚ) / 100 ∧
      |Rat.divInt 1 4 * Rat.divInt 1 2 - (k : ℚ) / 100| ≤ 1 / 200 ∧
      (|Rat.divInt 1 4 * Rat.divInt 1 2 - (k : ℚ) / 100| = 1 / 200 → k % 2 = 0) :=
  claim_C6_rounding (Rat.divInt 1 4) (Rat.divInt 1 2)
